import Mathlib

/-!
Verification development for the CRM MCP gateway (`src/mcp-server.ts`).

The TypeScript source is shallowly embedded: environment-driven
configuration becomes a record of Booleans (the truthiness of each
credential), the Google-Sheets tabular store becomes a list of rows
(each row a list of cell strings, exactly as the `values` arrays the
code reads and writes), the Express request handler becomes a pure
step function from a request plus the mutable session map to a
response plus the new session map, and the upstream network calls of
the backend adapters are supplied as oracle parameters.
-/

namespace CrmMcp

/-- Truthiness of the environment-driven configuration, mirroring the
module-level constants of `mcp-server.ts`: `sheetsClient` is whether the
Google Sheets client object was successfully initialised, the other
fields are the JavaScript truthiness of the corresponding environment
variable (an absent or empty string is falsy). -/
structure Config where
  sheetsClient : Bool
  sheetsSpreadsheetId : Bool
  calendlyApiToken : Bool
  calendlyOrganizationUri : Bool
  sendgridApiKey : Bool
  sendgridFromEmail : Bool
deriving DecidableEq, Repr

/-- A capability descriptor as pushed by `getAllTools`.  The `inputSchema`
objects of the source carry no behaviour relevant to the registry and
routing claims and are not modelled; `name` and `description` are copied
verbatim from the source. -/
structure Tool where
  name : String
  description : String
deriving DecidableEq, Repr

/-- The seven Google-Sheets descriptors pushed by `getAllTools` when the
Sheets backend is configured, in source push order. -/
def sheetsTools : List Tool :=
  [ { name := "initialize_sheet",
      description := "Initialize the Google Sheet with proper headers. Run this once when setting up a new sheet." },
    { name := "add_customer_record",
      description := "Add a new customer support record to the Google Sheet" },
    { name := "get_customer_record",
      description := "Retrieve a specific customer record by ID" },
    { name := "update_customer_record",
      description := "Update an existing customer record" },
    { name := "search_customer_records",
      description := "Search for customer records by email, name, status, or priority" },
    { name := "list_all_customers",
      description := "List all customer records in the sheet" },
    { name := "check_customer_history",
      description := "Check customer history by phone number" } ]

/-- The seven Calendly descriptors pushed by `getAllTools` when the
Calendly backend is configured, in source push order (`create_event`
first). -/
def calendlyTools : List Tool :=
  [ { name := "create_event",
      description := "Create appointment booking workflow with scheduling link" },
    { name := "list_event_types",
      description := "List all available Calendly event types (appointment types)" },
    { name := "get_event_type",
      description := "Get detailed information about a specific event type" },
    { name := "get_scheduling_link",
      description := "Get a scheduling link for a specific event type that can be shared with customers" },
    { name := "list_scheduled_events",
      description := "List scheduled events within a date range" },
    { name := "get_event_invitee",
      description := "Get information about an event invitee" },
    { name := "cancel_event",
      description := "Cancel a scheduled event" } ]

/-- The three SendGrid descriptors pushed by `getAllTools` when the email
backend is configured, in source push order. -/
def emailTools : List Tool :=
  [ { name := "send_appointment_confirmation",
      description := "Send an appointment confirmation email to a customer" },
    { name := "send_appointment_reminder",
      description := "Send an appointment reminder email" },
    { name := "send_custom_email",
      description := "Send a custom email to a recipient" } ]

/-- `getAllTools` of the source: the registry is assembled from the three
backends in fixed order, each block guarded by its configuration test
(`sheetsClient && GOOGLE_SHEETS_SPREADSHEET_ID`, then
`CALENDLY_API_TOKEN && CALENDLY_ORGANIZATION_URI`, then
`SENDGRID_API_KEY && SENDGRID_FROM_EMAIL`). -/
def getAllTools (cfg : Config) : List Tool :=
  (if cfg.sheetsClient && cfg.sheetsSpreadsheetId then sheetsTools else [])
    ++ (if cfg.calendlyApiToken && cfg.calendlyOrganizationUri then calendlyTools else [])
    ++ (if cfg.sendgridApiKey && cfg.sendgridFromEmail then emailTools else [])

/-! ## JavaScript string primitives

The JavaScript string methods the source uses are implemented on the
character list of the string (so that concrete instances evaluate by
kernel reduction). -/

/-- JavaScript `s.startsWith(p)`. -/
def strStartsWith (s p : String) : Bool :=
  p.data.isPrefixOf s.data

/-- JavaScript `s.endsWith(p)`. -/
def strEndsWith (s p : String) : Bool :=
  p.data.isSuffixOf s.data

/-- ASCII lower-casing of one character (the only case the data of this
server exercises; JavaScript `toLowerCase` agrees with it on ASCII). -/
def lowerChar (c : Char) : Char :=
  if 65 ≤ c.toNat && c.toNat ≤ 90 then Char.ofNat (c.toNat + 32) else c

/-- JavaScript `s.toLowerCase()` (ASCII range). -/
def strToLower (s : String) : String :=
  ⟨s.data.map lowerChar⟩

/-- Whitespace for `trim` (the characters JavaScript trims that can
occur in an HTTP header value). -/
def wsChar (c : Char) : Bool :=
  c == ' ' || c == '\t' || c == '\n' || c == '\r'

/-- JavaScript `s.trim()`. -/
def strTrim (s : String) : String :=
  ⟨((s.data.dropWhile wsChar).reverse.dropWhile wsChar).reverse⟩

/-! ## Tool-call routing (the `CallToolRequestSchema` handler) -/

/-- The literal allow-list of sheet tool names in the router branch
`name.startsWith` on `sheets_` or the literal `includes` list. -/
def sheetsRouteNames : List String :=
  ["initialize_sheet", "add_customer_record", "get_customer_record",
   "update_customer_record", "search_customer_records", "list_all_customers",
   "check_customer_history"]

/-- The literal allow-list of Calendly tool names in the router branch
`name.startsWith` on `calendly_` or the literal `includes` list. -/
def calendlyRouteNames : List String :=
  ["list_event_types", "get_event_type", "get_scheduling_link",
   "list_scheduled_events", "get_event_invitee", "cancel_event", "create_event"]

/-- The literal allow-list of email tool names in the router branch
`name.startsWith` on `email_` or the literal `includes` list. -/
def emailRouteNames : List String :=
  ["send_appointment_confirmation", "send_appointment_reminder", "send_custom_email"]

/-- Which backend a `tools/call` name is dispatched to. -/
inductive Route where
  | sheets
  | calendly
  | email
  | unknown
deriving DecidableEq, Repr

/-- The if/else-if routing chain of the `CallToolRequestSchema` handler,
tested in source order: sheets, then calendly, then email, else the
`Unknown tool` throw. -/
def routeToolName (name : String) : Route :=
  if strStartsWith name "sheets_" || sheetsRouteNames.contains name then .sheets
  else if strStartsWith name "calendly_" || calendlyRouteNames.contains name then .calendly
  else if strStartsWith name "email_" || emailRouteNames.contains name then .email
  else .unknown

/-- One entry of a result `content` array. -/
inductive ContentBlock where
  | text (s : String)
deriving DecidableEq, Repr

/-- The object returned by the `CallToolRequestSchema` handler.  A
JavaScript object is an open map of properties; the handler branches
return objects with `content` always, and `headers` / `sessionId` only
on the in-handler `initialize` branch.  No branch of the source ever
assigns an `error` property, so that field is `none` in every value the
embedding can produce. -/
structure ToolResult where
  content : List ContentBlock
  error : Option String
  headers : Option (List (String × String))
  sessionId : Option String
deriving DecidableEq, Repr

/-- Build a plain content-only result object. -/
def textResult (s : String) : ToolResult :=
  { content := [.text s], error := none, headers := none, sessionId := none }

/-- `handleSheetsTool`: configuration guard, then the switch over the
seven known names; the oracle stands for the network-backed branch taken
for a known name (`Except.error` for a thrown upstream error). -/
def handleSheetsTool (cfg : Config) (oracle : String → Except String ToolResult)
    (name : String) : Except String ToolResult :=
  if !(cfg.sheetsClient && cfg.sheetsSpreadsheetId) then
    .error "Google Sheets is not configured"
  else if sheetsRouteNames.contains name then oracle name
  else .error ("Unknown Google Sheets tool: " ++ name)

/-- `handleCalendlyTool`: configuration guard, then the switch over the
seven known names, defaulting to the `Unknown Calendly tool` throw. -/
def handleCalendlyTool (cfg : Config) (oracle : String → Except String ToolResult)
    (name : String) : Except String ToolResult :=
  if !(cfg.calendlyApiToken && cfg.calendlyOrganizationUri) then
    .error "Calendly is not configured"
  else if calendlyRouteNames.contains name then oracle name
  else .error ("Unknown Calendly tool: " ++ name)

/-- `handleEmailTool`: configuration guard, then the switch over the
three known names, defaulting to the `Unknown email tool` throw. -/
def handleEmailTool (cfg : Config) (oracle : String → Except String ToolResult)
    (name : String) : Except String ToolResult :=
  if !(cfg.sendgridApiKey && cfg.sendgridFromEmail) then
    .error "SendGrid is not configured"
  else if emailRouteNames.contains name then oracle name
  else .error ("Unknown email tool: " ++ name)

/-- The `CallToolRequestSchema` handler.  The `initialize` /
`initialize_session` special case answers before the try block (with the
freshly generated `uuid`); every other name is routed inside a
try/catch whose catch converts any thrown message into a
content-only `Error: ...` result object, so the handler itself never
throws. -/
def callToolHandler (cfg : Config)
    (sheetsOracle calendlyOracle emailOracle : String → Except String ToolResult)
    (uuid : String) (name : String) : ToolResult :=
  if name = "initialize" || name = "initialize_session" then
    { content := [.text "Initialized"],
      error := none,
      headers := some [("Mcp-Session-Id", uuid),
                       ("Access-Control-Expose-Headers", "Mcp-Session-Id")],
      sessionId := some uuid }
  else
    match (match routeToolName name with
           | .sheets => handleSheetsTool cfg sheetsOracle name
           | .calendly => handleCalendlyTool cfg calendlyOracle name
           | .email => handleEmailTool cfg emailOracle name
           | .unknown => .error ("Unknown tool: " ++ name)) with
    | .ok r => r
    | .error msg => textResult ("Error: " ++ msg)

/-! ## Google Sheets CRM model

The tabular store is a list of rows, each row the list of cell strings
of one `values` array.  Cell access `row[i]` of the source is `get?`
(JavaScript `undefined` is `none`). -/

/-- The `HEADERS` constant written to row 1 by `initializeSheet`
(thirteen columns, more than the ten that the data writers fill). -/
def HEADERS : List String :=
  ["ID", "Make", "Model", "KM", "Name", "Email", "Phone", "Issue", "Status",
   "Priority", "Created At", "Updated At", "Notes"]

/-- The argument object of `add_customer_record`; the optional fields of
the `CustomerRecord` interface are `Option`. -/
structure RecordInput where
  name : String
  email : String
  phone : Option String
  issue : String
  status : String
  priority : String
  notes : Option String
deriving DecidableEq, Repr

/-- The ten-cell row built by `addCustomerRecord`:
`[id, name, email, phone || empty, issue, status, priority, timestamp,
timestamp, notes || empty]`. -/
def mkRow (id timestamp : String) (r : RecordInput) : List String :=
  [id, r.name, r.email, r.phone.getD "", r.issue, r.status, r.priority,
   timestamp, timestamp, r.notes.getD ""]

/-- `addCustomerRecord`: append the new row to the sheet
(`spreadsheets.values.append` adds after the last row of the range). -/
def addCustomerRecord (sheet : List (List String)) (id timestamp : String)
    (r : RecordInput) : List (List String) :=
  sheet ++ [mkRow id timestamp r]

/-- The record object that `getCustomerRecord`, `searchCustomerRecords`
and `listAllCustomers` build from a row; each field is `row[i]` for the
fixed index i, `none` when the row is shorter. -/
structure RetrievedRecord where
  id : Option String
  name : Option String
  email : Option String
  phone : Option String
  issue : Option String
  status : Option String
  priority : Option String
  createdAt : Option String
  updatedAt : Option String
  notes : Option String
deriving DecidableEq, Repr

/-- Field extraction of the source mappers: indices 0 through 9. -/
def toRecord (row : List String) : RetrievedRecord :=
  { id := row.get? 0, name := row.get? 1, email := row.get? 2,
    phone := row.get? 3, issue := row.get? 4, status := row.get? 5,
    priority := row.get? 6, createdAt := row.get? 7, updatedAt := row.get? 8,
    notes := row.get? 9 }

/-- `getCustomerRecord`: `rows.find(row => row[0] === id)` over the full
range (header row included in the scan), mapped to the record object;
`none` is the `No customer record found` reply. -/
def getCustomerRecord (sheet : List (List String)) (id : String) :
    Option RetrievedRecord :=
  (sheet.find? fun row => row.get? 0 == some id).map toRecord

/-- The argument object of `update_customer_record`: `id` is required,
every other field is optional (`none` is JavaScript `undefined`, the
`update.x !== undefined` test). -/
structure UpdateInput where
  id : String
  name : Option String
  email : Option String
  phone : Option String
  issue : Option String
  status : Option String
  priority : Option String
  notes : Option String
deriving DecidableEq, Repr

/-- The `updatedRow` built by `updateCustomerRecord` from the existing
row: index 0 and index 7 are copied (ID and Created At), index 8 is the
fresh timestamp, the rest take the supplied value when defined and the
existing cell otherwise.  (On a cell the existing row lacks the source
leaves `undefined`, serialised as a blank cell; the embedding writes the
empty string, which only differs on rows shorter than the ten cells this
server itself writes.) -/
def mkUpdatedRow (existing : List String) (u : UpdateInput) (now : String) :
    List String :=
  [existing.getD 0 "",
   u.name.getD (existing.getD 1 ""),
   u.email.getD (existing.getD 2 ""),
   u.phone.getD (existing.getD 3 ""),
   u.issue.getD (existing.getD 4 ""),
   u.status.getD (existing.getD 5 ""),
   u.priority.getD (existing.getD 6 ""),
   existing.getD 7 "",
   now,
   u.notes.getD (existing.getD 9 "")]

/-- `updateCustomerRecord`: `rows.findIndex(row => row[0] === update.id)`;
`none` is the `No customer record found` reply, otherwise the row at that
index is overwritten in place (`values.update` on the same sheet row). -/
def updateCustomerRecord (sheet : List (List String)) (u : UpdateInput)
    (now : String) : Option (List (List String)) :=
  match sheet.findIdx? (fun row => row.get? 0 == some u.id) with
  | none => none
  | some i => some (sheet.set i (mkUpdatedRow (sheet.getD i []) u now))

/-- JavaScript `String.prototype.includes` on lists of characters
(substring containment). -/
def subOccurs (pat : List Char) : List Char → Bool
  | [] => pat.isPrefixOf []
  | c :: rest => pat.isPrefixOf (c :: rest) || subOccurs pat rest

/-- JavaScript `hay.includes(pat)` on strings. -/
def strIncludes (hay pat : String) : Bool :=
  subOccurs pat.data hay.data

/-- The criteria object of `search_customer_records`; every field
optional. -/
structure Criteria where
  email : Option String
  name : Option String
  status : Option String
  priority : Option String
deriving DecidableEq, Repr

/-- JavaScript truthiness of a possibly-undefined string: `undefined`
and the empty string are falsy. -/
def truthy : Option String → Bool
  | none => false
  | some s => !(s = "")

/-- The filter predicate of `searchCustomerRecords`, an early-return
chain of the four criteria.  A falsy criterion (absent or empty string)
imposes no constraint.  Email, status and priority compare the cell with
strict equality; name lower-cases both sides and tests substring
containment.  (When the name criterion is truthy and the row has no
index-1 cell the source would throw a TypeError on
`row[1].toLowerCase()`; the embedding returns `false` there, a case no
row written by this server can reach.) -/
def rowMatches (c : Criteria) (row : List String) : Bool :=
  (if truthy c.email then row.get? 2 == some (c.email.getD "") else true) &&
  (if truthy c.name then
     (match row.get? 1 with
      | some v => strIncludes (strToLower v) (strToLower (c.name.getD ""))
      | none => false)
   else true) &&
  (if truthy c.status then row.get? 5 == some (c.status.getD "") else true) &&
  (if truthy c.priority then row.get? 6 == some (c.priority.getD "") else true)

/-- `searchCustomerRecords`: `rows.slice(1).filter(...)` mapped to record
objects — the first row (the header) is dropped unconditionally. -/
def searchCustomerRecords (sheet : List (List String)) (c : Criteria) :
    List RetrievedRecord :=
  ((sheet.drop 1).filter (rowMatches c)).map toRecord

/-! ## HTTP gateway model (the Express `/mcp` handler)

The handler is embedded as a pure step function: it receives the
current `activeTransports` map together with the request and returns
the response that was written plus the map as it stands when the
handler returns.  Two aspects of the run that the source obtains from
the outside world are parameters: `uuid`, the value `randomUUID()`
returns if the branch calls it, and `transportSends`, whether the SDK
call `transport.handleRequest` itself wrote the HTTP response (the
`res.headersSent` test of the initialize branch). -/

/-- A `StreamableHTTPServerTransport` constructed by the handler; its
`sessionIdGenerator` is the constant function returning the session id
the handler pre-generated, which therefore identifies it. -/
structure Transport where
  sid : String
deriving DecidableEq, Repr

/-- The `activeTransports` map (session id to transport), as an
association list in insertion order. -/
abbrev SessionMap := List (String × Transport)

/-- JavaScript `Map.prototype.has`. -/
def mapHas (m : SessionMap) (k : String) : Bool :=
  m.any fun p => p.1 == k

/-- JavaScript `Map.prototype.get`. -/
def mapGet (m : SessionMap) (k : String) : Option Transport :=
  (m.find? fun p => p.1 == k).map Prod.snd

/-- JavaScript `Map.prototype.set`: overwrite in place when the key
exists, append otherwise. -/
def mapSet (m : SessionMap) (k : String) (t : Transport) : SessionMap :=
  if mapHas m k then m.map (fun p => if p.1 == k then (k, t) else p)
  else m ++ [(k, t)]

/-- JavaScript `Map.prototype.delete`. -/
def mapDelete (m : SessionMap) (k : String) : SessionMap :=
  m.filter fun p => !(p.1 == k)

/-- The `onsessioninitialized` callback wired into every transport the
handler constructs: `activeTransports.set(sid, transport)` for the sid
the SDK confirms. -/
def onSessionInitialized (t : Transport) (sid : String) (m : SessionMap) :
    SessionMap :=
  mapSet m sid t

/-- The `onsessionclosed` callback wired into every transport the
handler constructs: `activeTransports.delete(sid)`. -/
def onSessionClosed (sid : String) (m : SessionMap) : SessionMap :=
  mapDelete m sid

/-- An incoming request to `/mcp`.  `origin` is `none` when no Origin
header is present, `some none` when one is present but `new URL` throws
on it, and `some (some h)` when it parses with hostname `h`.
`sessionHeader` is the raw `Mcp-Session-Id` header (the source reads
both casings and takes the first non-empty one).  `bodyMethod` and
`bodyId` are `req.body.method` and `req.body.id`. -/
structure HttpRequest where
  method : String
  origin : Option (Option String)
  sessionHeader : Option String
  bodyMethod : Option String
  bodyId : Option Int
deriving DecidableEq, Repr

/-- The allow-list of `validateOrigin`. -/
def allowedHosts : List String :=
  ["localhost", "127.0.0.1", "openai.com", "ngrok-free.app", "ngrok.app",
   "api.openai.com"]

/-- `validateOrigin`: a request with no Origin header is accepted; an
unparseable Origin is rejected (the catch returns false); otherwise the
hostname must be an exact allow-list member or end with a dot followed
by a member. -/
def validateOrigin : Option (Option String) → Bool
  | none => true
  | some none => false
  | some (some h) => allowedHosts.any fun a => h == a || strEndsWith h ("." ++ a)

/-- The headers written by `setSessionHeaders` on an Express response
that had no prior `Access-Control-Expose-Headers` value. -/
def sessionHeaderPairs (sid : String) : List (String × String) :=
  [("Mcp-Session-Id", sid), ("Access-Control-Expose-Headers", "Mcp-Session-Id")]

/-- What the handler wrote as the response body.  `fromTransport` marks
a response delegated to `transport.handleRequest` of the transport with
the given session id (its content is produced by the SDK, outside this
embedding). -/
inductive RespBody where
  | text (s : String)
  | toolsListJson (id : Option Int) (tools : List Tool)
  | initFallbackJson (id : Option Int) (tools : List Tool)
  | fromTransport (sid : String)
deriving DecidableEq, Repr

/-- The HTTP response as far as the handler determines it; `status` is
`none` when the SDK transport chooses it. -/
structure HttpResponse where
  status : Option Nat
  headers : List (String × String)
  body : RespBody
deriving DecidableEq, Repr

/-- Result of one handler run: the response, the `activeTransports` map
at handler return, and the transport constructed during the run (wired
with `onSessionInitialized` / `onSessionClosed`), if any. -/
structure StepResult where
  resp : HttpResponse
  map : SessionMap
  newTransport : Option Transport
deriving DecidableEq, Repr

/-- The `app.all` handler for `/mcp`, in source branch order: origin
validation (403), session-header normalisation (trim, empty means
absent), GET (400 unless the session exists, else delegate after
echoing the session header), POST with the `initialize` special case
(pre-generate the id, construct and eagerly register the transport, set
the session headers, delegate, fall back to a minimal JSON envelope if
the transport did not answer), the `tools/list` special case (answered
directly from the registry), the generic POST path (reuse the session
transport, or construct an unregistered fresh one), and 405 for every
other method. -/
def mcpHandler (cfg : Config) (m : SessionMap) (req : HttpRequest)
    (uuid : String) (transportSends : Bool) : StepResult :=
  if !(validateOrigin req.origin) then
    { resp := { status := some 403, headers := [],
                body := .text "Forbidden: Invalid origin" },
      map := m, newTransport := none }
  else
    let trimmed := strTrim (req.sessionHeader.getD "")
    let sessionId : Option String := if trimmed = "" then none else some trimmed
    let notFound : StepResult :=
      { resp := { status := some 400, headers := [],
                  body := .text "Bad Request: Session not found. Initialize session first via POST /mcp" },
        map := m, newTransport := none }
    let freshPost : StepResult :=
      { resp := { status := none, headers := sessionHeaderPairs uuid,
                  body := .fromTransport uuid },
        map := m, newTransport := some ⟨uuid⟩ }
    if req.method == "GET" then
      match sessionId with
      | none => notFound
      | some sid =>
        if mapHas m sid then
          { resp := { status := none, headers := sessionHeaderPairs sid,
                      body := .fromTransport sid },
            map := m, newTransport := none }
        else notFound
    else if req.method == "POST" then
      if req.bodyMethod == some "initialize" then
        { resp := { status := if transportSends then none else some 200,
                    headers := sessionHeaderPairs uuid,
                    body := if transportSends then .fromTransport uuid
                            else .initFallbackJson req.bodyId (getAllTools cfg) },
          map := mapSet m uuid ⟨uuid⟩,
          newTransport := some ⟨uuid⟩ }
      else if req.bodyMethod == some "tools/list" then
        { resp := { status := some 200, headers := [],
                    body := .toolsListJson req.bodyId (getAllTools cfg) },
          map := m, newTransport := none }
      else
        match sessionId with
        | some sid =>
          if mapHas m sid then
            { resp := { status := none, headers := sessionHeaderPairs sid,
                        body := .fromTransport sid },
              map := m, newTransport := none }
          else freshPost
        | none => freshPost
    else
      { resp := { status := some 405, headers := [],
                  body := .text "Method Not Allowed" },
        map := m, newTransport := none }

/-! ## Shared concrete instances for witnesses and counterexamples -/

/-- A configuration with every backend fully configured. -/
def cfgAll : Config :=
  { sheetsClient := true, sheetsSpreadsheetId := true,
    calendlyApiToken := true, calendlyOrganizationUri := true,
    sendgridApiKey := true, sendgridFromEmail := true }

/-- An oracle that is never consulted on the paths under study. -/
def nullOracle : String → Except String ToolResult :=
  fun _ => .error "oracle unreached"

/-- A POST tools/list request from a disallowed origin host. -/
def reqBadOriginPost : HttpRequest :=
  { method := "POST", origin := some (some "evil.example"),
    sessionHeader := none, bodyMethod := some "tools/list", bodyId := some 1 }

/-- A GET request from a disallowed origin host with no session header. -/
def reqBadOriginGet : HttpRequest :=
  { method := "GET", origin := some (some "evil.example"),
    sessionHeader := none, bodyMethod := none, bodyId := none }

/-- A GET request with no Origin header presenting an unknown session id. -/
def reqGhostGet : HttpRequest :=
  { method := "GET", origin := none, sessionHeader := some "ghost",
    bodyMethod := none, bodyId := none }

/-- A handshake-free tools/list POST with no session header. -/
def reqToolsList : HttpRequest :=
  { method := "POST", origin := none, sessionHeader := none,
    bodyMethod := some "tools/list", bodyId := some 7 }

/-- A first-contact initialize POST with no session header. -/
def reqInit : HttpRequest :=
  { method := "POST", origin := none, sessionHeader := none,
    bodyMethod := some "initialize", bodyId := some 0 }

/-- A concrete record submission with the optional fields absent. -/
def demoInput : RecordInput :=
  { name := "Alice", email := "alice@example.com", phone := none,
    issue := "wifi down", status := "open", priority := "high", notes := none }

/-- A stored ten-cell row for Alice as the add operation writes it. -/
def demoRow : List String :=
  ["id-1", "Alice", "alice@example.com", "", "wifi down", "open", "high",
   "2026-01-01T00:00:00.000Z", "2026-01-01T00:00:00.000Z", ""]

/-- A sheet holding the header row and the Alice row. -/
def demoSheet : List (List String) := [HEADERS, demoRow]

/-- A partial update touching only the status field. -/
def demoUpdate : UpdateInput :=
  { id := "id-1", name := none, email := none, phone := none, issue := none,
    status := some "resolved", priority := none, notes := none }

end CrmMcp

namespace CrmMcp

/-! ## Claim C3: origin validation -/

/-- Claim C3: any request carrying an Origin header whose host is
neither an exact allow-list member nor a dot-suffix of one is answered
403 whatever its HTTP method and body, and the session map is left
unchanged; a request without an Origin header is never rejected by this
check. -/
theorem origin_rejection_403 (cfg : Config) (m : SessionMap)
    (req : HttpRequest) (uuid : String) (ts : Bool) (host : String)
    (hpres : req.origin = some (some host))
    (hrej : allowedHosts.any (fun a => host == a || strEndsWith host ("." ++ a)) = false) :
    (mcpHandler cfg m req uuid ts).resp.status = some 403 ∧
    (mcpHandler cfg m req uuid ts).map = m ∧
    (mcpHandler cfg m req uuid ts).newTransport = none ∧
    validateOrigin none = true := by
  have hv : validateOrigin req.origin = false := by
    rw [hpres]; simpa [validateOrigin] using hrej
  refine ⟨?_, ?_, ?_, rfl⟩ <;> simp [mcpHandler, hv]

/-- Witness for C3 at a concrete request: a POST with Origin host
`evil.example` and a tools/list body is rejected 403 with the map
untouched. -/
theorem origin_rejection_403_witness :
    (mcpHandler cfgAll [] reqBadOriginPost "u1" false).resp.status = some 403 ∧
    (mcpHandler cfgAll [] reqBadOriginPost "u1" false).map = [] ∧
    (mcpHandler cfgAll [] reqBadOriginPost "u1" false).newTransport = none ∧
    validateOrigin none = true :=
  origin_rejection_403 cfgAll [] reqBadOriginPost "u1" false "evil.example"
    rfl (by decide)

/-! ## Claim C2: GET with an unknown session -/

/-- Claim C2 as stated is false on the code: a GET presenting no session
identifier but carrying a disallowed Origin host is answered 403, not
400 — origin validation runs before the session check. -/
theorem get_absent_session_unconditional_400_fails :
    (mcpHandler cfgAll [] reqBadOriginGet "u1" false).resp.status = some 403 ∧
    (some 403 : Option Nat) ≠ some 400 := by
  constructor
  · rfl
  · decide

/-- Claim C2 (amended): for every GET request that passes origin
validation and whose normalised session identifier (trimmed, empty
treated as absent) is absent from the session map, the response status
is 400, the map is unchanged, and no transport is created. -/
theorem get_absent_session_400 (cfg : Config) (m : SessionMap)
    (req : HttpRequest) (uuid : String) (ts : Bool)
    (hor : validateOrigin req.origin = true)
    (hm : req.method = "GET")
    (habs : (strTrim (req.sessionHeader.getD "") = "") ∨
            mapHas m (strTrim (req.sessionHeader.getD "")) = false) :
    (mcpHandler cfg m req uuid ts).resp.status = some 400 ∧
    (mcpHandler cfg m req uuid ts).map = m ∧
    (mcpHandler cfg m req uuid ts).newTransport = none := by
  rcases habs with h | h <;>
    refine ⟨?_, ?_, ?_⟩ <;>
    · simp only [mcpHandler, hor, hm]
      split
      · rename_i hcontra
        simp at hcontra
      · by_cases he : strTrim (req.sessionHeader.getD "") = "" <;> simp [he, h]

/-- Witness for the amended C2: a GET with no Origin header and session
header `ghost` against an empty map is answered 400 with no session
created. -/
theorem get_absent_session_400_witness :
    (mcpHandler cfgAll [] reqGhostGet "u1" false).resp.status = some 400 ∧
    (mcpHandler cfgAll [] reqGhostGet "u1" false).map = [] ∧
    (mcpHandler cfgAll [] reqGhostGet "u1" false).newTransport = none :=
  get_absent_session_400 cfgAll [] reqGhostGet "u1" false rfl rfl
    (Or.inr (by decide))

/-! ## Claim C5: tools/list answered directly -/

/-- Claim C5 as stated is false on the code: a tools/list POST carrying
a disallowed Origin host is answered 403 by the origin check, which
runs before the body is inspected, and never reaches the registry —
the response body is the Forbidden text, not the registry answer. -/
theorem tools_list_unconditional_fails :
    (mcpHandler cfgAll [] reqBadOriginPost "u1" false).resp.status = some 403 ∧
    (mcpHandler cfgAll [] reqBadOriginPost "u1" false).resp.body
      = .text "Forbidden: Invalid origin" ∧
    (mcpHandler cfgAll [] reqBadOriginPost "u1" false).resp.body
      ≠ .toolsListJson reqBadOriginPost.bodyId (getAllTools cfgAll) := by
  refine ⟨rfl, rfl, by decide⟩

/-- Claim C5 (amended): a POST whose body method is tools/list and that
passes origin validation is answered
directly from the capability registry with a 200 JSON response, the
session map unchanged and no transport created or consulted; the result
does not depend on the session map (so the call works before any
initialize session exists and repeated calls return the same result). -/
theorem tools_list_direct (cfg : Config) (m : SessionMap) (req : HttpRequest)
    (uuid : String) (ts : Bool)
    (hor : validateOrigin req.origin = true)
    (hm : req.method = "POST")
    (hb : req.bodyMethod = some "tools/list") :
    mcpHandler cfg m req uuid ts =
      { resp := { status := some 200, headers := [],
                  body := .toolsListJson req.bodyId (getAllTools cfg) },
        map := m, newTransport := none } ∧
    (∀ m2 : SessionMap,
      (mcpHandler cfg m2 req uuid ts).resp = (mcpHandler cfg m req uuid ts).resp) := by
  constructor
  · simp [mcpHandler, hor, hm, hb]
  · intro m2
    simp [mcpHandler, hor, hm, hb]

/-- Witness for C5: a handshake-free tools/list POST against an empty
session map under the fully configured registry. -/
theorem tools_list_direct_witness :
    mcpHandler cfgAll [] reqToolsList "u1" false =
      { resp := { status := some 200, headers := [],
                  body := .toolsListJson (some 7) (getAllTools cfgAll) },
        map := [], newTransport := none } ∧
    (∀ m2 : SessionMap,
      (mcpHandler cfgAll m2 reqToolsList "u1" false).resp =
        (mcpHandler cfgAll [] reqToolsList "u1" false).resp) :=
  tools_list_direct cfgAll [] reqToolsList "u1" false rfl rfl rfl

/-! ## Claim C1: the initialize POST branch -/

theorem find_key_overwrite (k : String) (t : Transport) (m : SessionMap)
    (h : m.any (fun p => p.1 == k) = true) :
    (m.map fun p => if p.1 == k then (k, t) else p).find? (fun p => p.1 == k)
      = some (k, t) := by
  induction m with
  | nil => simp at h
  | cons q rest ih =>
    rw [List.map_cons]
    by_cases hq : (q.1 == k) = true
    · rw [if_pos hq]
      exact List.find?_cons_of_pos _ (beq_self_eq_true k)
    · rw [if_neg hq, List.find?_cons_of_neg (p := fun r : String × Transport => r.1 == k) _ hq]
      apply ih
      simp only [List.any_cons, Bool.or_eq_true] at h
      rcases h with h | h
      · exact absurd h hq
      · exact h

theorem find_key_appended (k : String) (t : Transport) (m : SessionMap)
    (h : m.any (fun p => p.1 == k) = false) :
    (m ++ [(k, t)]).find? (fun p => p.1 == k) = some (k, t) := by
  induction m with
  | nil =>
    rw [List.nil_append]
    exact List.find?_cons_of_pos _ (beq_self_eq_true k)
  | cons q rest ih =>
    simp only [List.any_cons, Bool.or_eq_false_iff] at h
    obtain ⟨h1, h2⟩ := h
    rw [List.cons_append,
      List.find?_cons_of_neg (p := fun r : String × Transport => r.1 == k) _ (by simp [h1]), ih h2]

/-- Inserting a key into the session map makes it retrievable: the
JavaScript `map.get(k)` after `map.set(k, t)` is `t`. -/
theorem mapGet_mapSet_self (m : SessionMap) (k : String) (t : Transport) :
    mapGet (mapSet m k t) k = some t := by
  unfold mapGet mapSet
  by_cases h : mapHas m k = true
  · have h2 : m.any (fun p => p.1 == k) = true := h
    rw [if_pos h, find_key_overwrite k t m h2]
    rfl
  · have h2 : m.any (fun p => p.1 == k) = false := by
      have := h
      unfold mapHas at this
      exact Bool.not_eq_true _ ▸ Bool.of_not_eq_true this
    rw [if_neg h, find_key_appended k t m h2]
    rfl

/-- Claim C1: a POST whose body method is initialize and that passes
origin validation pre-generates the session identifier: the response
carries a `Mcp-Session-Id` header equal to the (non-empty) identifier,
the new transport is stored in the session map eagerly before the
request is forwarded, the transport is wired with the
`onsessioninitialized` callback that stores it again on confirmation,
and when the transport path does not write a response the handler falls
back to a minimal JSON-RPC success envelope, so a response is produced
in either case. -/
theorem post_init_creates_session (cfg : Config) (m : SessionMap)
    (req : HttpRequest) (uuid : String) (ts : Bool)
    (hor : validateOrigin req.origin = true)
    (hm : req.method = "POST")
    (hb : req.bodyMethod = some "initialize")
    (hu : uuid ≠ "") :
    (mcpHandler cfg m req uuid ts).resp.headers = sessionHeaderPairs uuid ∧
    ("Mcp-Session-Id", uuid) ∈ (mcpHandler cfg m req uuid ts).resp.headers ∧
    uuid ≠ "" ∧
    (mcpHandler cfg m req uuid ts).map = mapSet m uuid ⟨uuid⟩ ∧
    mapGet (mcpHandler cfg m req uuid ts).map uuid = some ⟨uuid⟩ ∧
    (mcpHandler cfg m req uuid ts).newTransport = some ⟨uuid⟩ ∧
    (∀ m2 : SessionMap, onSessionInitialized ⟨uuid⟩ uuid m2 = mapSet m2 uuid ⟨uuid⟩) ∧
    (ts = false →
      (mcpHandler cfg m req uuid ts).resp.status = some 200 ∧
      (mcpHandler cfg m req uuid ts).resp.body
        = .initFallbackJson req.bodyId (getAllTools cfg)) ∧
    (ts = true →
      (mcpHandler cfg m req uuid ts).resp.body = .fromTransport uuid) := by
  have hred :
      mcpHandler cfg m req uuid ts =
        { resp := { status := if ts then none else some 200,
                    headers := sessionHeaderPairs uuid,
                    body := if ts then .fromTransport uuid
                            else .initFallbackJson req.bodyId (getAllTools cfg) },
          map := mapSet m uuid ⟨uuid⟩,
          newTransport := some ⟨uuid⟩ } := by
    simp [mcpHandler, hor, hm, hb]
  refine ⟨?_, ?_, hu, ?_, ?_, ?_, ?_, ?_, ?_⟩
  · rw [hred]
  · rw [hred]; simp [sessionHeaderPairs]
  · rw [hred]
  · rw [hred]; exact mapGet_mapSet_self m uuid ⟨uuid⟩
  · rw [hred]
  · intro m2; rfl
  · intro hts; rw [hred]; simp [hts]
  · intro hts; rw [hred]; simp [hts]

/-- Witness for C1: a first-contact initialize POST with no Origin
header against an empty session map. -/
theorem post_init_creates_session_witness :
    (mcpHandler cfgAll [] reqInit "u1" false).resp.headers = sessionHeaderPairs "u1" ∧
    ("Mcp-Session-Id", "u1") ∈ (mcpHandler cfgAll [] reqInit "u1" false).resp.headers ∧
    ("u1" : String) ≠ "" ∧
    (mcpHandler cfgAll [] reqInit "u1" false).map = mapSet [] "u1" ⟨"u1"⟩ ∧
    mapGet (mcpHandler cfgAll [] reqInit "u1" false).map "u1" = some ⟨"u1"⟩ ∧
    (mcpHandler cfgAll [] reqInit "u1" false).newTransport = some ⟨"u1"⟩ ∧
    (∀ m2 : SessionMap, onSessionInitialized ⟨"u1"⟩ "u1" m2 = mapSet m2 "u1" ⟨"u1"⟩) ∧
    (false = false →
      (mcpHandler cfgAll [] reqInit "u1" false).resp.status = some 200 ∧
      (mcpHandler cfgAll [] reqInit "u1" false).resp.body
        = .initFallbackJson reqInit.bodyId (getAllTools cfgAll)) ∧
    (false = true →
      (mcpHandler cfgAll [] reqInit "u1" false).resp.body = .fromTransport "u1") :=
  post_init_creates_session cfgAll [] reqInit "u1" false rfl rfl rfl (by decide)

/-! ## Claim C4: unknown capability names -/

/-- Claim C4 as stated is false on the code: invoking the unrecognised
name `mystery_tool` does complete normally, but the returned envelope
has no `error` field — the error text lives in the `content` blocks
instead. -/
theorem unknown_tool_error_field_unset :
    (callToolHandler cfgAll nullOracle nullOracle nullOracle "u1"
        "mystery_tool").error = none ∧
    (callToolHandler cfgAll nullOracle nullOracle nullOracle "u1"
        "mystery_tool").content = [.text "Error: Unknown tool: mystery_tool"] := by
  exact ⟨rfl, rfl⟩

theorem subOccurs_append (pre l : List Char) : subOccurs l (pre ++ l) = true := by
  induction pre with
  | nil =>
    rw [List.nil_append]
    cases l with
    | nil => rfl
    | cons c cs => simp [subOccurs, List.isPrefixOf_iff_prefix]
  | cons a pre ih => simp [subOccurs, ih]

/-- The thrown message `Unknown tool: name` contains the unknown name. -/
theorem strIncludes_append_self (pre s : String) :
    strIncludes (pre ++ s) s = true := by
  rw [strIncludes, String.data_append]
  exact subOccurs_append pre.data s.data

/-- Claim C4 (amended): a `tools/call` whose name no adapter recognises
(and that is not the in-handler initialize special case) completes
normally: the thrown `Unknown tool` exception is caught at the handler
boundary and converted into a content-only envelope whose text carries
the literal unknown name; the envelope has no `error` field. -/
theorem unknown_tool_error_envelope (cfg : Config)
    (so co eo : String → Except String ToolResult) (uuid name : String)
    (hroute : routeToolName name = .unknown)
    (h1 : name ≠ "initialize") (h2 : name ≠ "initialize_session") :
    callToolHandler cfg so co eo uuid name
      = textResult ("Error: Unknown tool: " ++ name) ∧
    strIncludes ("Error: Unknown tool: " ++ name) name = true ∧
    (callToolHandler cfg so co eo uuid name).error = none := by
  have henv : callToolHandler cfg so co eo uuid name
      = textResult ("Error: Unknown tool: " ++ name) := by
    have hlit : ("Error: " ++ "Unknown tool: " : String) = "Error: Unknown tool: " := by
      decide
    simp only [callToolHandler, h1, h2, hroute]
    rw [if_neg (by simp [h1, h2]), ← String.append_assoc, hlit]
  refine ⟨henv, strIncludes_append_self _ name, ?_⟩
  rw [henv]
  rfl

/-- Witness for the amended C4 at the concrete name `mystery_tool`. -/
theorem unknown_tool_error_envelope_witness :
    callToolHandler cfgAll nullOracle nullOracle nullOracle "u1" "mystery_tool"
      = textResult "Error: Unknown tool: mystery_tool" ∧
    strIncludes "Error: Unknown tool: mystery_tool" "mystery_tool" = true ∧
    (callToolHandler cfgAll nullOracle nullOracle nullOracle "u1"
        "mystery_tool").error = none :=
  unknown_tool_error_envelope cfgAll nullOracle nullOracle nullOracle "u1"
    "mystery_tool" (by decide) (by decide) (by decide)

/-! ## Claim C6: add then get round-trip -/

theorem find?_append_left_none {α : Type} (l₁ l₂ : List α) (p : α → Bool)
    (h : l₁.find? p = none) : (l₁ ++ l₂).find? p = l₂.find? p := by
  induction l₁ with
  | nil => rw [List.nil_append]
  | cons a l ih =>
    cases hpa : p a with
    | true =>
      rw [List.find?_cons_of_pos _ hpa] at h
      exact absurd h (by simp)
    | false =>
      rw [List.find?_cons_of_neg _ (by simp [hpa])] at h
      rw [List.cons_append, List.find?_cons_of_neg _ (by simp [hpa]), ih h]

/-- Claim C6: adding a record and immediately retrieving it by the
identifier the add reported yields exactly the submitted fields, with
absent optional fields stored as the empty string, the server-assigned
id, and equal creation and update timestamps. -/
theorem add_get_roundtrip (sheet : List (List String)) (id timestamp : String)
    (r : RecordInput)
    (hfresh : ∀ row ∈ sheet, row.get? 0 ≠ some id) :
    getCustomerRecord (addCustomerRecord sheet id timestamp r) id =
      some { id := some id, name := some r.name, email := some r.email,
             phone := some (r.phone.getD ""), issue := some r.issue,
             status := some r.status, priority := some r.priority,
             createdAt := some timestamp, updatedAt := some timestamp,
             notes := some (r.notes.getD "") } ∧
    (∀ rec, getCustomerRecord (addCustomerRecord sheet id timestamp r) id
        = some rec → rec.createdAt = rec.updatedAt) := by
  have hnone : sheet.find? (fun row => row.get? 0 == some id) = none := by
    refine List.find?_eq_none.mpr ?_
    intro row hrow
    simpa using hfresh row hrow
  have hget : getCustomerRecord (addCustomerRecord sheet id timestamp r) id =
      some (toRecord (mkRow id timestamp r)) := by
    rw [getCustomerRecord, addCustomerRecord,
      find?_append_left_none _ _ _ hnone,
      List.find?_cons_of_pos _ (by simp [mkRow])]
    rfl
  constructor
  · rw [hget]; rfl
  · intro rec hrec
    rw [hget] at hrec
    cases hrec
    rfl

/-- Witness for C6: adding a record for Alice to a sheet holding only
the header row and reading it back by the fresh id. -/
theorem add_get_roundtrip_witness :
    getCustomerRecord
        (addCustomerRecord [HEADERS] "id-1" "2026-01-01T00:00:00.000Z" demoInput)
        "id-1" =
      some { id := some "id-1", name := some demoInput.name,
             email := some demoInput.email,
             phone := some (demoInput.phone.getD ""),
             issue := some demoInput.issue, status := some demoInput.status,
             priority := some demoInput.priority,
             createdAt := some "2026-01-01T00:00:00.000Z",
             updatedAt := some "2026-01-01T00:00:00.000Z",
             notes := some (demoInput.notes.getD "") } ∧
    (∀ rec, getCustomerRecord
        (addCustomerRecord [HEADERS] "id-1" "2026-01-01T00:00:00.000Z" demoInput)
        "id-1" = some rec → rec.createdAt = rec.updatedAt) :=
  add_get_roundtrip [HEADERS] "id-1" "2026-01-01T00:00:00.000Z" demoInput
    (by decide)

/-! ## Claim C7: partial update -/

/-- Claim C7 as stated is false on the code: an update invoked at a
clock reading equal to the stored `Updated At` value (same-millisecond
update) leaves `updatedAt` equal to — not strictly beyond — its prior
value, because the code simply stamps the current clock reading into
the row. -/
theorem update_strict_advance_fails :
    updateCustomerRecord demoSheet demoUpdate "2026-01-01T00:00:00.000Z" =
      some [HEADERS,
            ["id-1", "Alice", "alice@example.com", "", "wifi down", "resolved",
             "high", "2026-01-01T00:00:00.000Z", "2026-01-01T00:00:00.000Z",
             ""]] ∧
    (demoSheet.getD 1 []).get? 8 = some "2026-01-01T00:00:00.000Z" := by
  exact ⟨rfl, rfl⟩

/-- Claim C7 (amended): updating an existing record with a partial field
set keeps every unsupplied field at its stored value, preserves the id
(cell 0) and `createdAt` (cell 7) unchanged, and sets `updatedAt`
(cell 8) to the invocation-time clock reading — which strictly exceeds
the prior value exactly when the clock reading does. -/
theorem update_partial_frame (sheet : List (List String)) (u : UpdateInput)
    (now : String) (i : Nat) (c0 c1 c2 c3 c4 c5 c6 c7 c8 c9 : String)
    (hidx : sheet.findIdx? (fun row => row.get? 0 == some u.id) = some i)
    (hrow : sheet.getD i [] = [c0, c1, c2, c3, c4, c5, c6, c7, c8, c9]) :
    updateCustomerRecord sheet u now =
      some (sheet.set i
        [c0, u.name.getD c1, u.email.getD c2, u.phone.getD c3, u.issue.getD c4,
         u.status.getD c5, u.priority.getD c6, c7, now, u.notes.getD c9]) := by
  rw [updateCustomerRecord, hidx]
  show some (sheet.set i (mkUpdatedRow (sheet.getD i []) u now)) = _
  rw [hrow]
  rfl

/-- Witness for the amended C7: the status-only update of the Alice row
at a later clock reading. -/
theorem update_partial_frame_witness :
    updateCustomerRecord demoSheet demoUpdate "2026-01-02T00:00:00.000Z" =
      some (demoSheet.set 1
        ["id-1", demoUpdate.name.getD "Alice",
         demoUpdate.email.getD "alice@example.com", demoUpdate.phone.getD "",
         demoUpdate.issue.getD "wifi down", demoUpdate.status.getD "open",
         demoUpdate.priority.getD "high", "2026-01-01T00:00:00.000Z",
         "2026-01-02T00:00:00.000Z", demoUpdate.notes.getD ""]) :=
  update_partial_frame demoSheet demoUpdate "2026-01-02T00:00:00.000Z" 1
    "id-1" "Alice" "alice@example.com" "" "wifi down" "open" "high"
    "2026-01-01T00:00:00.000Z" "2026-01-01T00:00:00.000Z" ""
    (by decide) (by decide)

/-! ## Claim C8: credential-toggled registry -/

/-- Position of the backend a descriptor belongs to in registration
order (sheets, calendly, email). -/
def backendRank (t : Tool) : Nat :=
  if t ∈ sheetsTools then 0 else if t ∈ calendlyTools then 1 else 2

/-- Claim C8: the descriptors of a backend appear in the registry exactly
when its full credential set is truthy, every registry entry comes from
one of the three backends (a missing backend contributes zero
descriptors and raises no error — the function is total), and the
sequence keeps the fixed registration order sheets, calendly, email. -/
theorem registry_credential_toggle (cfg : Config) :
    (∀ t ∈ sheetsTools,
      (t ∈ getAllTools cfg ↔ (cfg.sheetsClient && cfg.sheetsSpreadsheetId) = true)) ∧
    (∀ t ∈ calendlyTools,
      (t ∈ getAllTools cfg ↔ (cfg.calendlyApiToken && cfg.calendlyOrganizationUri) = true)) ∧
    (∀ t ∈ emailTools,
      (t ∈ getAllTools cfg ↔ (cfg.sendgridApiKey && cfg.sendgridFromEmail) = true)) ∧
    (∀ t ∈ getAllTools cfg, t ∈ sheetsTools ∨ t ∈ calendlyTools ∨ t ∈ emailTools) ∧
    ((getAllTools cfg).map backendRank).Pairwise (· ≤ ·) := by
  obtain ⟨a, b, c, d, e, f⟩ := cfg
  cases a <;> cases b <;> cases c <;> cases d <;> cases e <;> cases f <;> decide

/-- Witness for C8: the `add_customer_record` descriptor is in the fully
configured registry. -/
theorem registry_credential_toggle_witness :
    (sheetsTools.getD 1 { name := "", description := "" }) ∈ sheetsTools ∧
    ((sheetsTools.getD 1 { name := "", description := "" }) ∈ getAllTools cfgAll ↔
      (cfgAll.sheetsClient && cfgAll.sheetsSpreadsheetId) = true) :=
  ⟨by decide,
   (registry_credential_toggle cfgAll).1
     (sheetsTools.getD 1 { name := "", description := "" }) (by decide)⟩

/-! ## Claim C9: registry and router stay consistent -/

/-- Claim C9: under every backend configuration, every capability name
the registry can advertise is dispatched by the routing chain to its
owning backend (sheets, calendly or email, tested in that order) and
never reaches the unknown-tool branch. -/
theorem registry_router_consistency (cfg : Config) :
    ∀ t ∈ getAllTools cfg,
      routeToolName t.name ≠ .unknown ∧
      (t ∈ sheetsTools → routeToolName t.name = .sheets) ∧
      (t ∈ calendlyTools → routeToolName t.name = .calendly) ∧
      (t ∈ emailTools → routeToolName t.name = .email) := by
  obtain ⟨a, b, c, d, e, f⟩ := cfg
  cases a <;> cases b <;> cases c <;> cases d <;> cases e <;> cases f <;> decide

/-- Witness for C9: the advertised `create_event` descriptor routes to
the Calendly handler. -/
theorem registry_router_consistency_witness :
    routeToolName (calendlyTools.getD 0 { name := "", description := "" }).name
        ≠ .unknown ∧
    ((calendlyTools.getD 0 { name := "", description := "" }) ∈ sheetsTools →
      routeToolName (calendlyTools.getD 0 { name := "", description := "" }).name
        = .sheets) ∧
    ((calendlyTools.getD 0 { name := "", description := "" }) ∈ calendlyTools →
      routeToolName (calendlyTools.getD 0 { name := "", description := "" }).name
        = .calendly) ∧
    ((calendlyTools.getD 0 { name := "", description := "" }) ∈ emailTools →
      routeToolName (calendlyTools.getD 0 { name := "", description := "" }).name
        = .email) :=
  registry_router_consistency cfgAll
    (calendlyTools.getD 0 { name := "", description := "" }) (by decide)

/-! ## Claim C10: search matching semantics -/

/-- Claim C10 as stated is false on the code: an email criterion that is
present but the empty string imposes no constraint (JavaScript
truthiness makes the guard falsy), so a record whose stored email is not
equal to the given criterion still matches and is returned. -/
theorem search_empty_criterion_matches :
    searchCustomerRecords demoSheet
        { email := some "", name := none, status := none, priority := none }
      = [toRecord demoRow] ∧
    (toRecord demoRow).email = some "alice@example.com" ∧
    (some "alice@example.com" : Option String) ≠ some "" := by
  refine ⟨rfl, rfl, by decide⟩

/-- The matching predicate in the words of the amended claim: a
criterion that is absent or empty imposes no constraint; a non-empty
email, status or priority criterion requires exact (case-sensitive)
equality of the stored cell; a non-empty name criterion requires the
lower-cased stored name to contain the lower-cased criterion as a
substring.  Stated over the named cells so it can be compared with the
row predicate translated from the source. -/
def specMatches (c : Criteria) (row : List String) : Bool :=
  (match c.email with
   | none => true
   | some e => if e = "" then true else row.getD 2 "" == e) &&
  (match c.name with
   | none => true
   | some n => if n = "" then true
               else strIncludes (strToLower (row.getD 1 "")) (strToLower n)) &&
  (match c.status with
   | none => true
   | some s => if s = "" then true else row.getD 5 "" == s) &&
  (match c.priority with
   | none => true
   | some q => if q = "" then true else row.getD 6 "" == q)

theorem eqCond_spec (o : Option String) (x : String) :
    (if truthy o then some x == some (o.getD "") else true)
      = (match o with
         | none => true
         | some e => if e = "" then true else x == e) := by
  cases o with
  | none => rfl
  | some e => by_cases hi : e = "" <;> simp [truthy, hi]

theorem nameCond_spec (o : Option String) (x : String) :
    (if truthy o then strIncludes (strToLower x) (strToLower (o.getD "")) else true)
      = (match o with
         | none => true
         | some n => if n = "" then true
                     else strIncludes (strToLower x) (strToLower n)) := by
  cases o with
  | none => rfl
  | some n => by_cases hi : n = "" <;> simp [truthy, hi]

/-- On a full ten-cell row (every row this server writes is one), the
filter predicate translated from the source coincides with the
spec-worded predicate. -/
theorem rowMatches_eq_specMatches (c : Criteria) (row : List String)
    (h : row.length = 10) : rowMatches c row = specMatches c row := by
  have h1 : row.get? 1 = some (row.getD 1 "") := by
    rw [List.get?_eq_getElem?, List.getD_eq_getElem?_getD,
      List.getElem?_eq_getElem (by omega)]
    rfl
  have h2 : row.get? 2 = some (row.getD 2 "") := by
    rw [List.get?_eq_getElem?, List.getD_eq_getElem?_getD,
      List.getElem?_eq_getElem (by omega)]
    rfl
  have h5 : row.get? 5 = some (row.getD 5 "") := by
    rw [List.get?_eq_getElem?, List.getD_eq_getElem?_getD,
      List.getElem?_eq_getElem (by omega)]
    rfl
  have h6 : row.get? 6 = some (row.getD 6 "") := by
    rw [List.get?_eq_getElem?, List.getD_eq_getElem?_getD,
      List.getElem?_eq_getElem (by omega)]
    rfl
  rw [rowMatches, specMatches, h1, h2, h5, h6]
  rw [eqCond_spec c.email (row.getD 2 ""), eqCond_spec c.status (row.getD 5 ""),
    eqCond_spec c.priority (row.getD 6 ""),
    nameCond_spec c.name (row.getD 1 "")]

/-- Claim C10 (amended): on a sheet whose data rows are the full
ten-cell rows this server writes, the search returns exactly the data
rows (the header row is always excluded) matching the amended
predicate: absent or empty criteria impose no constraint, a non-empty
email/status/priority criterion demands exact equality, and a non-empty
name criterion demands case-insensitive substring containment. -/
theorem search_semantics (sheet : List (List String)) (c : Criteria)
    (hlen : ∀ row ∈ sheet.drop 1, row.length = 10) :
    searchCustomerRecords sheet c
      = ((sheet.drop 1).filter (specMatches c)).map toRecord := by
  rw [searchCustomerRecords]
  congr 1
  exact List.filter_congr fun row hrow =>
    rowMatches_eq_specMatches c row (hlen row hrow)

/-- Witness for the amended C10: searching the Alice sheet by her exact
email. -/
theorem search_semantics_witness :
    searchCustomerRecords demoSheet
        { email := some "alice@example.com", name := none, status := none,
          priority := none }
      = ((demoSheet.drop 1).filter
          (specMatches
            { email := some "alice@example.com", name := none, status := none,
              priority := none })).map toRecord :=
  search_semantics demoSheet
    { email := some "alice@example.com", name := none, status := none,
      priority := none }
    (by decide)

end CrmMcp
